import Mathlib

/-!
Verification development for `Scripts/validate_struct_initialization.py`.

A file's text is represented by its list of lines: the Python code splits the
file content on `'\n'` before any per-line work, and every regular expression
it uses is anchored at the start of a line, so working line-wise is faithful.
Python `\s` / `\w` and `str.strip` are modelled over their ASCII ranges.
Each regular expression of the script is deterministic on a single line
(greedy repetition followed by a character excluded from the repeated class),
so each is embedded as a first-order decoding function.
-/

namespace Vibeheim

/-- ASCII model of Python's `\s` class and of the default `str.strip`. -/
def isPySpace (c : Char) : Bool :=
  c = ' ' || c = '\t' || c = '\n' || c = '\r' || c = '\x0b' || c = '\x0c'

/-- ASCII model of Python's `\w` class. -/
def isWordChar (c : Char) : Bool :=
  c.isAlphanum || c = '_'

/-- Python `str.strip()`: remove leading and trailing whitespace. -/
def pyStrip (s : List Char) : List Char :=
  ((s.dropWhile isPySpace).reverse.dropWhile isPySpace).reverse

/-- String literal as a character list. -/
def str (s : String) : List Char := s.toList

/-- Consume a literal prefix, returning the remainder on success. -/
def dropLit : List Char → List Char → Option (List Char)
  | [], s => some s
  | _ :: _, [] => none
  | c :: p, d :: s => if c = d then dropLit p s else none

/-- Consume a parenthesized argument list body `[^)]*\)`, positioned just
after the opening `(`; returns the remainder after the `)`. -/
def parenBody (r : List Char) : Option (List Char) :=
  match r.dropWhile (fun c => !(c = ')')) with
  | ')' :: rest => some rest
  | _ => none

/-- `uproperty_pattern = ^\s*UPROPERTY\s*\([^)]*\)\s*$`, searched on one line.
Because the pattern is anchored on both sides and `[^)]*` cannot cross `)`,
the match is deterministic. -/
def uproperty_match (l : List Char) : Bool :=
  match dropLit (str "UPROPERTY") (l.dropWhile isPySpace) with
  | none => false
  | some r =>
    match r.dropWhile isPySpace with
    | '(' :: r2 =>
      match parenBody r2 with
      | some r3 => r3.dropWhile isPySpace = []
      | none => false
    | _ => false

/-- Trailing part `\s*(?://.*)?$` shared by the declaration pattern. -/
def declTail (post : List Char) : Bool :=
  match post.dropWhile isPySpace with
  | [] => true
  | '/' :: '/' :: _ => true
  | _ => false

/-- The part of `fguid_declaration_pattern` after the property name:
`(?:\s*=\s*([^;]+))?\s*;\s*(?://.*)?$`.  Returns `some init?` on a match,
where `init?` is the raw text captured by group 2 (if the group matched).
Greedy `[^;]+` runs up to the first `;`; when everything between `=` and `;`
is whitespace, backtracking leaves a single whitespace character in group 2. -/
def declAfterName (r : List Char) : Option (Option (List Char)) :=
  match r.dropWhile isPySpace with
  | '=' :: after =>
    let before := after.takeWhile (fun c => !(c = ';'))
    (match after.dropWhile (fun c => !(c = ';')) with
     | ';' :: post =>
       if declTail post then
         match before.dropWhile isPySpace with
         | [] =>
           (match before.reverse with
            | [] => none
            | c :: _ => some (some [c]))
         | rest => some (some rest)
       else none
     | _ => none)
  | ';' :: post => if declTail post then some none else none
  | _ => none

/-- `fguid_declaration_pattern =
`^\s*FGuid\s+(\w+)(?:\s*=\s*([^;]+))?\s*;\s*(?://.*)?$`, searched on one
line.  Returns `some (name, rawInitializer?)` on a match. -/
def fguid_match (l : List Char) : Option (List Char × Option (List Char)) :=
  match dropLit (str "FGuid") (l.dropWhile isPySpace) with
  | none => none
  | some r =>
    match r with
    | c :: _ =>
      if isPySpace c then
        let r1 := r.dropWhile isPySpace
        let name := r1.takeWhile isWordChar
        if name = [] then none
        else
          match declAfterName (r1.dropWhile isWordChar) with
          | none => none
          | some init => some (name, init)
      else none
    | [] => none

/-- The part of `struct_pattern` after the keyword `struct`:
`\s+(?:VIBEHEIM_API\s+)?(\w+)`.  The optional token is taken exactly when the
literal is followed by whitespace and then a word character (otherwise the
regex engine backtracks and `\w+` captures from the start). -/
def structAfterKw (r : List Char) : Option (List Char) :=
  match r with
  | c :: _ =>
    if isPySpace c then
      let r1 := r.dropWhile isPySpace
      let r2 :=
        match dropLit (str "VIBEHEIM_API") r1 with
        | some rest =>
          (match rest with
           | c2 :: _ =>
             if isPySpace c2 then
               let r3 := rest.dropWhile isPySpace
               if r3.takeWhile isWordChar = [] then r1 else r3
             else r1
           | [] => r1)
        | none => r1
      let name := r2.takeWhile isWordChar
      if name = [] then none else some name
    else none
  | [] => none

/-- `struct_pattern = ^\s*(?:USTRUCT\s*\([^)]*\)\s*)?struct\s+(?:VIBEHEIM_API\s+)?(\w+)`,
searched on one line; returns the captured struct name.  A line whose first
non-space characters are `USTRUCT` can only match through the optional prefix
(the fallback requires a literal `struct` at the same position). -/
def struct_match (l : List Char) : Option (List Char) :=
  let s := l.dropWhile isPySpace
  match dropLit (str "USTRUCT") s with
  | some r =>
    (match r.dropWhile isPySpace with
     | '(' :: r2 =>
       (match parenBody r2 with
        | some r3 =>
          (match dropLit (str "struct") (r3.dropWhile isPySpace) with
           | some r5 => structAfterKw r5
           | none => none)
        | none => none)
     | _ => none)
  | none =>
    match dropLit (str "struct") s with
    | some r5 => structAfterKw r5
    | none => none

/-- `FGuidProperty` dataclass. -/
structure FGuidProperty where
  file_path : List Char
  line_number : Nat
  struct_name : List Char
  property_name : List Char
  uproperty_line : List Char
  declaration_line : List Char
  has_initializer : Bool
  initializer_value : Option (List Char)
deriving DecidableEq, Repr

/-- `ValidationResult` dataclass. -/
structure ValidationResult where
  file_path : List Char
  properties_found : List FGuidProperty
  valid_properties : List FGuidProperty
  invalid_properties : List FGuidProperty
  suppressed_properties : List FGuidProperty
deriving DecidableEq, Repr

/-- Backward scan of `find_struct_name`: `for i in range(line_number - 1, -1, -1)`.
`findStructAux lines k` inspects 0-based indices `k-1, k-2, …, 0`. -/
def findStructAux (lines : List (List Char)) : Nat → List Char
  | 0 => str "UnknownStruct"
  | k + 1 =>
    match struct_match (lines.getD k []) with
    | some n => n
    | none => findStructAux lines k

/-- `StructInitializationValidator.find_struct_name(content, line_number)`. -/
def find_struct_name (lines : List (List Char)) (line_number : Nat) : List Char :=
  findStructAux lines line_number

/-- `valid_initializers` (a Python set literal; the duplicate entry dedups). -/
def valid_initializers : List (List Char) :=
  [str "FGuid()", str "FGuid::NewGuid()"]

/-- `StructInitializationValidator.is_valid_initialization`.  The `none`
initializer branch under `has_initializer = true` is unreachable for
scanner-produced properties (Python would raise there). -/
def is_valid_initialization (p : FGuidProperty) : Bool :=
  if p.has_initializer then
    match p.initializer_value with
    | some v => decide (pyStrip v ∈ valid_initializers)
    | none => false
  else false

/-- The `patterns_to_check` list built by `is_suppressed`. -/
def patterns_to_check (file_path struct_name property_name : List Char) :
    List (List Char) :=
  [ file_path ++ str ":" ++ struct_name ++ str "::" ++ property_name
  , struct_name ++ str "::" ++ property_name
  , str "*::" ++ property_name
  , file_path ]

/-- `StructInitializationValidator.is_suppressed`: exact set membership of
any of the four candidate keys. -/
def is_suppressed (supp : List (List Char))
    (file_path struct_name property_name : List Char) : Bool :=
  (patterns_to_check file_path struct_name property_name).any
    (fun pat => decide (pat ∈ supp))

/-- One `FGuidProperty` record as built in `validate_file` for an annotation
at 0-based index `i` whose window matched at 0-based index `j`. -/
def mkOcc (fp : List Char) (lines : List (List Char)) (i j : Nat)
    (name : List Char) (init : Option (List Char)) : FGuidProperty :=
  { file_path := fp
  , line_number := j + 1
  , struct_name := find_struct_name lines (j + 1)
  , property_name := name
  , uproperty_line := pyStrip (lines.getD i [])
  , declaration_line := pyStrip (lines.getD j [])
  , has_initializer := init.isSome
  , initializer_value := init.map pyStrip }

/-- First FGuid declaration among the given 0-based indices (in order),
stopping at the end of the line list: `for j in range(i+1, min(i+5, len))`. -/
def firstMatchIn (lines : List (List Char)) :
    List Nat → Option (Nat × List Char × Option (List Char))
  | [] => none
  | j :: rest =>
    if j < lines.length then
      match fguid_match (lines.getD j []) with
      | some m => some (j, m)
      | none => firstMatchIn lines rest
    else none

/-- The 4-line lookahead window scanned for the annotation at index `i`. -/
def windowHit (lines : List (List Char)) (i : Nat) :
    Option (Nat × List Char × Option (List Char)) :=
  firstMatchIn lines [i + 1, i + 2, i + 3, i + 4]

/-- The contribution of loop index `i` in `validate_file`: an annotation
line records the first declaration matched inside its window, any other
line records nothing. -/
def occAt (fp : List Char) (lines : List (List Char)) (i : Nat) :
    Option FGuidProperty :=
  if uproperty_match (lines.getD i []) then
    (windowHit lines i).map (fun x => mkOcc fp lines i x.1 x.2.1 x.2.2)
  else none

/-- The detection loop of `validate_file`: every line index is visited in
order (the loop always advances by one). -/
def foundOccs (fp : List Char) (lines : List (List Char)) : List FGuidProperty :=
  (List.range lines.length).filterMap (occAt fp lines)

/-- The categorization loop of `validate_file`, in declaration order:
`(valid, invalid, suppressed)`. -/
def categorize (supp : List (List Char)) (fp : List Char) :
    List FGuidProperty →
      List FGuidProperty × List FGuidProperty × List FGuidProperty
  | [] => ([], [], [])
  | p :: rest =>
    let c := categorize supp fp rest
    if is_suppressed supp fp p.struct_name p.property_name then
      (c.1, c.2.1, p :: c.2.2)
    else if is_valid_initialization p then
      (p :: c.1, c.2.1, c.2.2)
    else
      (c.1, p :: c.2.1, c.2.2)

/-- `StructInitializationValidator.validate_file` on a successfully read
file, given its path and its text as a list of lines. -/
def validate_file (supp : List (List Char)) (fp : List Char)
    (lines : List (List Char)) : ValidationResult :=
  let found := foundOccs fp lines
  let c := categorize supp fp found
  { file_path := fp
  , properties_found := found
  , valid_properties := c.1
  , invalid_properties := c.2.1
  , suppressed_properties := c.2.2 }

/-- Python `str(n)` for a count. -/
def natChars (n : Nat) : List Char := (Nat.repr n).toList

/-- `scan_directory`, abstracted over the file enumeration produced by
`Path.glob` (each entry: path and file text as lines; reads succeed).  Files
with no found properties are omitted from the result list. -/
def scan_directory (supp : List (List Char))
    (files : List (List Char × List (List Char))) : List ValidationResult :=
  (files.map (fun f => validate_file supp f.1 f.2)).filter
    (fun r => !r.properties_found.isEmpty)

/-- `total_properties` as summed in `generate_report`. -/
def total_found (results : List ValidationResult) : Nat :=
  (results.map (fun r => r.properties_found.length)).sum

/-- `total_valid` as summed in `generate_report`. -/
def total_valid (results : List ValidationResult) : Nat :=
  (results.map (fun r => r.valid_properties.length)).sum

/-- `total_invalid` as summed in `generate_report` and in `main`. -/
def total_invalid (results : List ValidationResult) : Nat :=
  (results.map (fun r => r.invalid_properties.length)).sum

/-- `total_suppressed` as summed in `generate_report`. -/
def total_suppressed (results : List ValidationResult) : Nat :=
  (results.map (fun r => r.suppressed_properties.length)).sum

/-- The report lines appended for one invalid property. -/
def propInvalidLines (p : FGuidProperty) : List (List Char) :=
  [ str "File: " ++ p.file_path ++ str ":" ++ natChars p.line_number
  , str "Struct: " ++ p.struct_name
  , str "Property: " ++ p.property_name
  , str "Declaration: " ++ p.declaration_line ]
  ++ (if p.has_initializer then
        [ str "Current initializer: " ++ p.initializer_value.getD []
        , str "Issue: Invalid initializer pattern" ]
      else
        [ str "Issue: Missing in-class initializer" ])
  ++ [ str "Expected: FGuid() or FGuid::NewGuid()", [] ]

/-- The report line appended for one suppressed property. -/
def propSuppressedLine (p : FGuidProperty) : List Char :=
  p.file_path ++ str ":" ++ natChars p.line_number ++ str " - "
    ++ p.struct_name ++ str "::" ++ p.property_name

/-- The report line appended for one valid property. -/
def propValidLine (p : FGuidProperty) : List Char :=
  str "✅ " ++ p.file_path ++ str ":" ++ natChars p.line_number ++ str " - "
    ++ p.struct_name ++ str "::" ++ p.property_name ++ str " = "
    ++ p.initializer_value.getD []

/-- `StructInitializationValidator.generate_report`: the exact report text
(`"\n".join` of the accumulated lines). -/
def generate_report (results : List ValidationResult) : List Char :=
  let header : List (List Char) :=
    [ List.replicate 80 '='
    , str "UPROPERTY FGuid Initialization Validation Report"
    , List.replicate 80 '='
    , []
    , str "Total files scanned: " ++ natChars results.length
    , str "Total UPROPERTY FGuid properties found: " ++ natChars (total_found results)
    , str "Valid properties: " ++ natChars (total_valid results)
    , str "Invalid properties: " ++ natChars (total_invalid results)
    , str "Suppressed properties: " ++ natChars (total_suppressed results)
    , [] ]
  let invalidSec : List (List Char) :=
    if 0 < total_invalid results then
      [ str "❌ VALIDATION FAILED"
      , []
      , str "Invalid Properties (require fixes):"
      , List.replicate 40 '-' ]
      ++ results.flatMap (fun r => r.invalid_properties.flatMap propInvalidLines)
    else
      [ str "✅ VALIDATION PASSED", [] ]
  let suppSec : List (List Char) :=
    if 0 < total_suppressed results then
      [ str "Suppressed Properties:", List.replicate 20 '-' ]
      ++ results.flatMap (fun r => r.suppressed_properties.map propSuppressedLine)
      ++ [[]]
    else []
  let validSec : List (List Char) :=
    if 0 < total_valid results then
      [ str "Valid Properties:", List.replicate 15 '-' ]
      ++ results.flatMap (fun r => r.valid_properties.map propValidLine)
      ++ [[]]
    else []
  List.intercalate ['\n'] (header ++ invalidSec ++ suppSec ++ validSec)

/-- The `main` control flow after argument parsing, abstracted over: whether
`--create-suppression-file` was given (a truthy path), whether
`os.path.isdir(args.directory)` holds, the `--fail-on-invalid` flag, the
loaded suppression set, and the directory enumeration.  Result: the process
exit code and the report text written (to stdout or `--output`), if any.
File-system write faults are outside the model. -/
def main_run (createFlag dirOk failOnInvalid : Bool)
    (supp : List (List Char))
    (files : List (List Char × List (List Char))) : Nat × Option (List Char) :=
  if createFlag then (0, none)
  else if dirOk = false then (1, none)
  else
    let results := scan_directory supp files
    let report := generate_report results
    (if failOnInvalid = true ∧ 0 < total_invalid results then 1 else 0,
     some report)

/-- JSON values, as returned by `json.load`. -/
inductive JValue where
  | jnull
  | jbool (b : Bool)
  | jnum (n : Int)
  | jstr (s : List Char)
  | jarr (xs : List JValue)
  | jobj (fields : List (List Char × JValue))

/-- What the suppression-file argument and file system present to
`load_suppressions`: no path given; path to a nonexistent file; an existing
file whose open/read raises `IOError`; an existing file that `json.load`
rejects (`JSONDecodeError`); or an existing file parsed to a JSON value. -/
inductive SuppressionSource where
  | noPath
  | fileMissing
  | unreadable
  | notJson
  | parsed (j : JValue)

/-- Outcome of `load_suppressions`: the resulting pattern set together with
whether the warning was printed, or an uncaught Python exception (the
`except` clause catches only `JSONDecodeError` and `IOError`). -/
inductive LoadResult where
  | ok (patterns : List (List Char)) (warned : Bool)
  | pythonError

/-- Python `dict` built by `json.load`: on duplicate keys the last one wins. -/
def jLookupLast (fields : List (List Char × JValue)) (k : List Char) :
    Option JValue :=
  (fields.reverse.find? (fun f => decide (f.1 = k))).map (fun f => f.2)

/-- `set(v)` over the value of the `suppressions` key.  A list element that
is itself a list or object is unhashable (`TypeError`); other non-string
hashable elements are kept out of the model set, which is faithful for
matching because they never compare equal to a queried string key.  A string
iterates to its characters, a dict to its keys; numbers, booleans and `null`
are not iterable (`TypeError`). -/
def setFromValue : JValue → LoadResult
  | .jarr xs =>
    if xs.any (fun x =>
        match x with
        | .jarr _ => true
        | .jobj _ => true
        | _ => false) then
      .pythonError
    else
      .ok (xs.filterMap (fun x =>
        match x with
        | .jstr s => some s
        | _ => none)) false
  | .jstr s => .ok (s.map (fun c => [c])) false
  | .jobj fields => .ok (fields.map (fun f => f.1)) false
  | _ => .pythonError

/-- `StructInitializationValidator.load_suppressions`.  The patterns start
empty; an absent or missing file leaves them empty silently; a caught
`IOError`/`JSONDecodeError` prints the warning and leaves them empty; a
parsed non-object reaches `data.get` and raises an uncaught
`AttributeError`. -/
def load_suppressions : SuppressionSource → LoadResult
  | .noPath => .ok [] false
  | .fileMissing => .ok [] false
  | .unreadable => .ok [] true
  | .notJson => .ok [] true
  | .parsed j =>
    match j with
    | .jobj fields =>
      (match jLookupLast fields (str "suppressions") with
       | none => .ok [] false
       | some v => setFromValue v)
    | _ => .pythonError

/-! ### Helper lemmas -/

lemma dropLit_cons_some {c : Char} {p s r : List Char}
    (h : dropLit (c :: p) s = some r) : ∃ t, s = c :: t ∧ dropLit p t = some r := by
  cases s with
  | nil => simp [dropLit] at h
  | cons d t =>
    simp only [dropLit] at h
    split at h
    · next heq => exact ⟨t, by rw [heq], h⟩
    · exact absurd h (by simp)

lemma uproperty_match_head {l : List Char} (h : uproperty_match l = true) :
    ∃ t, l.dropWhile isPySpace = 'U' :: t := by
  unfold uproperty_match at h
  cases hd : dropLit (str "UPROPERTY") (l.dropWhile isPySpace) with
  | none => rw [hd] at h; simp at h
  | some r =>
    have e : str "UPROPERTY" = 'U' :: str "PROPERTY" := rfl
    rw [e] at hd
    obtain ⟨t, ht, -⟩ := dropLit_cons_some hd
    exact ⟨t, ht⟩

lemma fguid_match_head {l : List Char} {m} (h : fguid_match l = some m) :
    ∃ t, l.dropWhile isPySpace = 'F' :: t := by
  unfold fguid_match at h
  cases hd : dropLit (str "FGuid") (l.dropWhile isPySpace) with
  | none => rw [hd] at h; simp at h
  | some r =>
    have e : str "FGuid" = 'F' :: str "Guid" := rfl
    rw [e] at hd
    obtain ⟨t, ht, -⟩ := dropLit_cons_some hd
    exact ⟨t, ht⟩

/-- An annotation line is never itself an FGuid declaration line (the two
patterns require different first non-space characters). -/
lemma uprop_fguid_exclusive {l : List Char} (h : uproperty_match l = true) :
    fguid_match l = none := by
  obtain ⟨t, ht⟩ := uproperty_match_head h
  unfold fguid_match
  rw [ht]
  rfl

/-- An FGuid declaration line is never an annotation line. -/
lemma fguid_uprop_false {l : List Char} {m} (h : fguid_match l = some m) :
    uproperty_match l = false := by
  obtain ⟨t, ht⟩ := fguid_match_head h
  unfold uproperty_match
  rw [ht]
  rfl

/-- An FGuid declaration line never matches the struct-declaration pattern,
so including the declaration line itself in the backward scan of
`find_struct_name` cannot change its result. -/
lemma fguid_struct_none {l : List Char} {m} (h : fguid_match l = some m) :
    struct_match l = none := by
  obtain ⟨t, ht⟩ := fguid_match_head h
  simp only [struct_match]
  rw [ht]
  rfl

/-- Classification predicate: suppressed. -/
def suppP (supp : List (List Char)) (fp : List Char) (p : FGuidProperty) : Bool :=
  is_suppressed supp fp p.struct_name p.property_name

/-- Classification predicate: valid (only reached if not suppressed). -/
def validP (supp : List (List Char)) (fp : List Char) (p : FGuidProperty) : Bool :=
  !(suppP supp fp p) && is_valid_initialization p

/-- Classification predicate: invalid (only reached if neither). -/
def invalidP (supp : List (List Char)) (fp : List Char) (p : FGuidProperty) : Bool :=
  !(suppP supp fp p) && !(is_valid_initialization p)

lemma categorize_eq (supp : List (List Char)) (fp : List Char) :
    ∀ l, categorize supp fp l =
      (l.filter (validP supp fp), l.filter (invalidP supp fp),
        l.filter (suppP supp fp))
  | [] => rfl
  | p :: rest => by
    have ih := categorize_eq supp fp rest
    cases hs : suppP supp fp p with
    | true =>
      have hs' : is_suppressed supp fp p.struct_name p.property_name = true := hs
      simp [categorize, ih, List.filter_cons, validP, invalidP, suppP, hs']
    | false =>
      have hs' : is_suppressed supp fp p.struct_name p.property_name = false := hs
      cases hv : is_valid_initialization p with
      | true =>
        simp [categorize, ih, List.filter_cons, validP, invalidP, suppP, hs', hv]
      | false =>
        simp [categorize, ih, List.filter_cons, validP, invalidP, suppP, hs', hv]

lemma filter_three_perm (supp : List (List Char)) (fp : List Char) :
    ∀ l : List FGuidProperty,
      (l.filter (validP supp fp) ++ l.filter (invalidP supp fp)
        ++ l.filter (suppP supp fp)).Perm l
  | [] => by simp
  | p :: l => by
    have ih := filter_three_perm supp fp l
    cases hs : suppP supp fp p with
    | true =>
      have hv : validP supp fp p = false := by simp [validP, hs]
      have hi : invalidP supp fp p = false := by simp [invalidP, hs]
      simp only [List.filter_cons, hs, hv, hi, if_true, if_false,
        Bool.false_eq_true, ite_false, ite_true]
      exact List.perm_middle.trans (ih.cons p)
    | false =>
      cases hv : is_valid_initialization p with
      | true =>
        have hv' : validP supp fp p = true := by simp [validP, hs, hv]
        have hi : invalidP supp fp p = false := by simp [invalidP, hs, hv]
        simp only [List.filter_cons, hs, hv', hi, Bool.false_eq_true,
          ite_false, ite_true]
        exact ih.cons p
      | false =>
        have hv' : validP supp fp p = false := by simp [validP, hs, hv]
        have hi : invalidP supp fp p = true := by simp [invalidP, hs, hv]
        simp only [List.filter_cons, hs, hv', hi, Bool.false_eq_true,
          ite_false, ite_true]
        exact (List.perm_middle.append_right _).trans (ih.cons p)

lemma validate_file_valid (supp : List (List Char)) (fp : List Char)
    (lines : List (List Char)) :
    (validate_file supp fp lines).valid_properties =
      (foundOccs fp lines).filter (validP supp fp) := by
  simp [validate_file, categorize_eq]

lemma validate_file_invalid (supp : List (List Char)) (fp : List Char)
    (lines : List (List Char)) :
    (validate_file supp fp lines).invalid_properties =
      (foundOccs fp lines).filter (invalidP supp fp) := by
  simp [validate_file, categorize_eq]

lemma validate_file_suppressed (supp : List (List Char)) (fp : List Char)
    (lines : List (List Char)) :
    (validate_file supp fp lines).suppressed_properties =
      (foundOccs fp lines).filter (suppP supp fp) := by
  simp [validate_file, categorize_eq]

lemma validate_file_found (supp : List (List Char)) (fp : List Char)
    (lines : List (List Char)) :
    (validate_file supp fp lines).properties_found = foundOccs fp lines := rfl

/-! ### Claims -/

/-- **C1.** For every file processed, classification assigns each detected
occurrence exactly one category with priority suppressed > valid > invalid:
the three output lists are sublists of the found sequence (hence preserve
declaration order), their concatenation is a permutation of the found
sequence (every occurrence appears exactly once overall), they are pairwise
disjoint, and an occurrence matching a suppression key lands in the
suppressed list and never in the valid list. -/
theorem claim_c1 (supp : List (List Char)) (fp : List Char)
    (lines : List (List Char)) :
    ((validate_file supp fp lines).valid_properties.Sublist
        (validate_file supp fp lines).properties_found
      ∧ (validate_file supp fp lines).invalid_properties.Sublist
        (validate_file supp fp lines).properties_found
      ∧ (validate_file supp fp lines).suppressed_properties.Sublist
        (validate_file supp fp lines).properties_found)
    ∧ ((validate_file supp fp lines).valid_properties
        ++ (validate_file supp fp lines).invalid_properties
        ++ (validate_file supp fp lines).suppressed_properties).Perm
        (validate_file supp fp lines).properties_found
    ∧ (∀ p, p ∈ (validate_file supp fp lines).valid_properties →
        p ∉ (validate_file supp fp lines).invalid_properties
          ∧ p ∉ (validate_file supp fp lines).suppressed_properties)
    ∧ (∀ p, p ∈ (validate_file supp fp lines).invalid_properties →
        p ∉ (validate_file supp fp lines).suppressed_properties)
    ∧ (∀ p, p ∈ (validate_file supp fp lines).properties_found →
        is_suppressed supp fp p.struct_name p.property_name = true →
        p ∈ (validate_file supp fp lines).suppressed_properties
          ∧ p ∉ (validate_file supp fp lines).valid_properties) := by
  rw [validate_file_valid, validate_file_invalid, validate_file_suppressed,
    validate_file_found]
  refine ⟨⟨List.filter_sublist _, List.filter_sublist _, List.filter_sublist _⟩,
    filter_three_perm supp fp _, ?_, ?_, ?_⟩
  · intro p hp
    have hv : validP supp fp p = true := (List.mem_filter.mp hp).2
    constructor
    · intro hc
      have hi : invalidP supp fp p = true := (List.mem_filter.mp hc).2
      simp [validP] at hv
      simp [invalidP, hv.2] at hi
    · intro hc
      have hsp : suppP supp fp p = true := (List.mem_filter.mp hc).2
      simp [validP, hsp] at hv
  · intro p hp
    have hi : invalidP supp fp p = true := (List.mem_filter.mp hp).2
    intro hc
    have hsp : suppP supp fp p = true := (List.mem_filter.mp hc).2
    simp [invalidP, hsp] at hi
  · intro p hp hsupp
    have hsp : suppP supp fp p = true := hsupp
    refine ⟨List.mem_filter.mpr ⟨hp, hsp⟩, ?_⟩
    intro hc
    have hv : validP supp fp p = true := (List.mem_filter.mp hc).2
    simp [validP, hsp] at hv

/-- **C2.** An occurrence is classified valid exactly when it is found,
not suppressed, and satisfies the validity rule; and the validity rule holds
exactly when the occurrence has an initializer whose trimmed text equals
(full-string) one of the two allow-listed canonical forms `FGuid()` and
`FGuid::NewGuid()` — no initializer, or any other text, fails it. -/
theorem claim_c2 (supp : List (List Char)) (fp : List Char)
    (lines : List (List Char)) (p : FGuidProperty) :
    (p ∈ (validate_file supp fp lines).valid_properties ↔
      p ∈ (validate_file supp fp lines).properties_found
        ∧ is_suppressed supp fp p.struct_name p.property_name = false
        ∧ is_valid_initialization p = true)
    ∧ (is_valid_initialization p = true ↔
        p.has_initializer = true ∧ ∃ v, p.initializer_value = some v
          ∧ (pyStrip v = str "FGuid()" ∨ pyStrip v = str "FGuid::NewGuid()")) := by
  constructor
  · rw [validate_file_valid, validate_file_found, List.mem_filter]
    constructor
    · rintro ⟨hmem, hv⟩
      simp only [validP, Bool.and_eq_true, Bool.not_eq_true'] at hv
      exact ⟨hmem, hv.1, hv.2⟩
    · rintro ⟨hmem, hs, hv⟩
      refine ⟨hmem, ?_⟩
      simp [validP, suppP, hs, hv]
  · unfold is_valid_initialization
    cases hinit : p.has_initializer with
    | false => simp
    | true =>
      cases hval : p.initializer_value with
      | none => simp
      | some v => simp [valid_initializers]

/-- **C5.** The suppression check holds exactly when at least one of the
four candidate keys — `{file}:{struct}::{property}`, `{struct}::{property}`,
`*::{property}`, and the bare file path — is a member, by exact string
equality, of the loaded suppression set. -/
theorem claim_c5 (supp : List (List Char)) (f s p : List Char) :
    is_suppressed supp f s p = true ↔
      (f ++ str ":" ++ s ++ str "::" ++ p) ∈ supp
        ∨ (s ++ str "::" ++ p) ∈ supp
        ∨ (str "*::" ++ p) ∈ supp
        ∨ f ∈ supp := by
  simp [is_suppressed, patterns_to_check, or_assoc]

/-- **C3.** For an annotation line at index `i`, exactly the 4 subsequent
lines `i+1 … i+4` are searched: when nothing matches on lines `i+1 … i+3`,
the window hit is precisely the declaration match on line `i+4` (detected
when present and in range), and when line `i+4` does not match either, the
annotation line yields no occurrence at all — line `i+5` is never
consulted. -/
theorem claim_c3 (fp : List Char) (lines : List (List Char)) (i : Nat)
    (hu : uproperty_match (lines.getD i []) = true)
    (h1 : fguid_match (lines.getD (i + 1) []) = none)
    (h2 : fguid_match (lines.getD (i + 2) []) = none)
    (h3 : fguid_match (lines.getD (i + 3) []) = none) :
    (windowHit lines i =
      if i + 4 < lines.length then
        (fguid_match (lines.getD (i + 4) [])).map (fun m => (i + 4, m))
      else none)
    ∧ (fguid_match (lines.getD (i + 4) []) = none → occAt fp lines i = none) := by
  have hwin : windowHit lines i =
      if i + 4 < lines.length then
        (fguid_match (lines.getD (i + 4) [])).map (fun m => (i + 4, m))
      else none := by
    by_cases b4 : i + 4 < lines.length
    · have b1 : i + 1 < lines.length := by omega
      have b2 : i + 2 < lines.length := by omega
      have b3 : i + 3 < lines.length := by omega
      simp only [windowHit, firstMatchIn, b1, b2, b3, b4, h1, h2, h3, if_true]
      cases hf : fguid_match (lines.getD (i + 4) []) <;> simp [hf]
    · simp only [windowHit, firstMatchIn, h1, h2, h3]
      by_cases b1 : i + 1 < lines.length
      · by_cases b2 : i + 2 < lines.length
        · by_cases b3 : i + 3 < lines.length
          · simp [b1, b2, b3, b4]
          · simp [b1, b2, b3, b4]
        · simp [b1, b2, b4]
      · simp [b1, b4]
  refine ⟨hwin, fun h4 => ?_⟩
  have hnone : windowHit lines i = none := by
    rw [hwin, h4]
    by_cases b4 : i + 4 < lines.length <;> simp [b4]
  unfold occAt
  rw [if_pos hu, hnone]
  rfl

/-- **C4.** First-match-wins inside one window, and scanning resumes at the
line after the annotation line: an annotation followed by two tracked
declarations yields exactly one occurrence, for the first declaration
(line number 2); and two consecutive annotation lines followed by one
declaration both have the declaration in their (overlapping) windows, so
each records it (two occurrences, both at line number 3). -/
theorem claim_c4 (fp a d1 d2 a2 n1 n2 : List Char)
    (v1 v2 : Option (List Char))
    (ha : uproperty_match a = true)
    (ha2 : uproperty_match a2 = true)
    (hd1 : fguid_match d1 = some (n1, v1))
    (hd2 : fguid_match d2 = some (n2, v2)) :
    ((foundOccs fp [a, d1, d2]).map
        (fun p => (p.line_number, p.property_name)) = [(2, n1)])
    ∧ ((foundOccs fp [a, a2, d1]).map (fun p => p.line_number) = [3, 3]) := by
  have hfa : fguid_match a = none := uprop_fguid_exclusive ha
  have hfa2 : fguid_match a2 = none := uprop_fguid_exclusive ha2
  have hu1 : uproperty_match d1 = false := fguid_uprop_false hd1
  have hu2 : uproperty_match d2 = false := fguid_uprop_false hd2
  constructor
  · simp [foundOccs, occAt, windowHit, firstMatchIn, mkOcc,
      ha, hd1, hu1, hu2, List.range_succ]
  · simp [foundOccs, occAt, windowHit, firstMatchIn, mkOcc,
      ha, ha2, hfa2, hd1, hu1, List.range_succ]

/-- Specification form of the scope heuristic: scan strictly backward from
line `j - 1` down to line 0 and return the first struct-pattern capture,
or the sentinel when none exists. -/
def nearestPrecedingStruct (lines : List (List Char)) (j : Nat) : List Char :=
  match (List.range j).reverse.findSome? (fun k => struct_match (lines.getD k [])) with
  | some n => n
  | none => str "UnknownStruct"

lemma findStructAux_eq_nearest (lines : List (List Char)) :
    ∀ j, findStructAux lines j = nearestPrecedingStruct lines j
  | 0 => rfl
  | j + 1 => by
    have ih := findStructAux_eq_nearest lines j
    simp only [findStructAux, nearestPrecedingStruct, List.range_succ,
      List.reverse_append, List.reverse_cons, List.reverse_nil,
      List.nil_append, List.singleton_append, List.findSome?_cons]
    cases hsm : struct_match (lines.getD j []) with
    | none => simpa [hsm, nearestPrecedingStruct] using ih
    | some n => simp [hsm]

/-- **C7.** For any file text and any FGuid declaration line (0-based index
`j`, 1-based line number `j + 1`), `find_struct_name` returns exactly the
result of scanning strictly backward from the preceding line down to line 0
for the first struct-pattern match, with sentinel `"UnknownStruct"` when no
line matches (the scan the code starts at index `j` itself is harmless
because a declaration line never matches the struct pattern). -/
theorem claim_c7 (lines : List (List Char)) (j : Nat)
    (m : List Char × Option (List Char))
    (hdecl : fguid_match (lines.getD j []) = some m) :
    find_struct_name lines (j + 1) = nearestPrecedingStruct lines j := by
  have hsm : struct_match (lines.getD j []) = none := fguid_struct_none hdecl
  show findStructAux lines (j + 1) = nearestPrecedingStruct lines j
  simp only [findStructAux, hsm]
  exact findStructAux_eq_nearest lines j

def c7Lines : List (List Char) :=
  [str "USTRUCT(BlueprintType)", str "struct VIBEHEIM_API FThing",
   str "\x7b", str "    UPROPERTY(EditAnywhere)", str "    FGuid Id;"]

theorem claim_c7_witness :
    fguid_match (c7Lines.getD 4 []) = some (str "Id", none)
    ∧ find_struct_name c7Lines 5 = nearestPrecedingStruct c7Lines 4
    ∧ find_struct_name c7Lines 5 = str "FThing" :=
  ⟨by decide, claim_c7 c7Lines 4 (str "Id", none) (by decide), by decide⟩

def c3LinesA : List (List Char) :=
  [str "UPROPERTY()", [], [], [], str "FGuid Id;"]

def c3LinesB : List (List Char) :=
  [str "UPROPERTY()", [], [], [], [], str "FGuid Id;"]

theorem claim_c3_witness :
    (windowHit c3LinesA 0 = some (4, str "Id", none))
    ∧ (windowHit c3LinesB 0 = none ∧ occAt (str "W.h") c3LinesB 0 = none)
    ∧ fguid_match (c3LinesB.getD 5 []) = some (str "Id", none) := by
  refine ⟨?_, ⟨?_, ?_⟩, by decide⟩
  · exact (claim_c3 (str "W.h") c3LinesA 0 (by decide) (by decide) (by decide)
      (by decide)).1.trans (by decide)
  · exact (claim_c3 (str "W.h") c3LinesB 0 (by decide) (by decide) (by decide)
      (by decide)).1.trans (by decide)
  · exact (claim_c3 (str "W.h") c3LinesB 0 (by decide) (by decide) (by decide)
      (by decide)).2 (by decide)

theorem claim_c4_witness :
    ((foundOccs (str "W.h")
        [str "UPROPERTY()", str "FGuid A = FGuid();", str "FGuid B;"]).map
        (fun p => (p.line_number, p.property_name)) = [(2, str "A")])
    ∧ ((foundOccs (str "W.h")
        [str "UPROPERTY()", str "UPROPERTY(EditAnywhere)",
         str "FGuid A = FGuid();"]).map (fun p => p.line_number) = [3, 3]) :=
  claim_c4 (str "W.h") (str "UPROPERTY()") (str "FGuid A = FGuid();")
    (str "FGuid B;") (str "UPROPERTY(EditAnywhere)") (str "A") (str "B")
    (some (str "FGuid()")) none (by decide) (by decide) (by decide) (by decide)

/-- **C6.** The recoverable branches behave as claimed: no path or a
nonexistent file gives an empty suppression set with no warning, and a file
that cannot be read or is not valid JSON gives a warning and an empty set,
the run continuing.  But the claim's headline "never aborts" fails: a
suppression file holding valid JSON whose top level is not an object (e.g.
`[]`) reaches `data.get` and raises an uncaught `AttributeError`, aborting
the run — the `except` clause catches only `JSONDecodeError` and `IOError`. -/
theorem claim_c6_code_bug :
    load_suppressions .noPath = .ok [] false
    ∧ load_suppressions .fileMissing = .ok [] false
    ∧ load_suppressions .notJson = .ok [] true
    ∧ load_suppressions .unreadable = .ok [] true
    ∧ load_suppressions (.parsed (.jarr [])) = .pythonError :=
  ⟨rfl, rfl, rfl, rfl, rfl⟩

/-- **C8 (counterexample).** With `--create-suppression-file` given and a
root directory that is not a directory, the process exits 0 (the template
is written and `main` returns before the directory check), contradicting
the claim that a bad root directory always yields exit code 1. -/
theorem claim_c8_counterexample :
    (main_run true false true [] []).1 = 0
    ∧ ¬ ((main_run true false true [] []).1 = 1) :=
  ⟨rfl, by decide⟩

/-- **C8 (amended).** When `--create-suppression-file` is not given, the
exit code is 1 exactly when the root is not a directory (exiting with no
report before scanning) or the scan's aggregate invalid count is nonzero
with `--fail-on-invalid` set; otherwise it is 0.  When
`--create-suppression-file` is given, the process exits 0 with no report. -/
theorem claim_c8 (dirOk foi : Bool) (supp : List (List Char))
    (files : List (List Char × List (List Char))) :
    ((main_run false dirOk foi supp files).1 = 1 ↔
      dirOk = false ∨ (foi = true ∧ 0 < total_invalid (scan_directory supp files)))
    ∧ (dirOk = false → main_run false dirOk foi supp files = (1, none))
    ∧ main_run true dirOk foi supp files = (0, none) := by
  unfold main_run
  cases dirOk with
  | false => simp
  | true =>
    cases foi with
    | false => simp
    | true =>
      by_cases h : 0 < total_invalid (scan_directory supp files)
      · simp [h]
      · simp [h]

theorem claim_c8_witness :
    main_run false false true [] [] = ((1 : Nat), (none : Option (List Char))) :=
  (claim_c8 false true [] []).2.1 rfl

def c9FileA : List Char × List (List Char) :=
  (str "a.h", [str "UPROPERTY()", str "FGuid AId;"])

def c9FileB : List Char × List (List Char) :=
  (str "b.h", [str "UPROPERTY()", str "FGuid BId;"])

/-- **C9 (counterexample).** Identical file contents (the same set of files
with the same texts) do not by themselves make the report byte-identical:
the walker does not sort the enumeration, and the same two files presented
in the two enumeration orders produce different report texts (the itemized
listings appear in enumeration order). -/
theorem claim_c9_counterexample :
    ([c9FileA, c9FileB].Perm [c9FileB, c9FileA])
    ∧ generate_report (scan_directory [] [c9FileA, c9FileB])
        ≠ generate_report (scan_directory [] [c9FileB, c9FileA]) := by
  refine ⟨List.Perm.swap _ _ _, ?_⟩
  set_option maxRecDepth 100000 in decide

/-- **C9 (amended).** Runs are deterministic only modulo the walker's
enumeration order: the report text and exit code are functions of the
enumerated (path, text) sequence, and the exit code is moreover invariant
under any permutation of that sequence, so identical contents always give
the identical exit code, while byte-identical report text is guaranteed
only for the identical enumeration order. -/
theorem claim_c9 (foi : Bool) (supp : List (List Char))
    (files files2 : List (List Char × List (List Char)))
    (h : files.Perm files2) :
    (main_run false true foi supp files).1
      = (main_run false true foi supp files2).1 := by
  have hp : (scan_directory supp files).Perm (scan_directory supp files2) :=
    (h.map _).filter _
  have hti : total_invalid (scan_directory supp files)
      = total_invalid (scan_directory supp files2) := by
    unfold total_invalid
    exact (hp.map _).sum_eq
  unfold main_run
  simp [hti]

theorem claim_c9_witness :
    (main_run false true true [] [c9FileA, c9FileB]).1
      = (main_run false true true [] [c9FileB, c9FileA]).1 :=
  claim_c9 true [] _ _ (List.Perm.swap _ _ _)

def c10Lines : List (List Char) :=
  [str "UPROPERTY()", str "UPROPERTY(EditAnywhere)", str "FGuid Id;"]

def c10Path : List Char := str "Test.h"

/-- **C10.** A single declaration line can produce more than one
occurrence: two annotation lines directly before one tracked declaration
yield two distinct occurrences (their annotation texts differ) sharing the
declaration's line number and property name, and the found/invalid totals
feeding the report count that declaration once per annotation line. -/
theorem claim_c10 :
    ((foundOccs c10Path c10Lines).map (fun p => p.line_number) = [3, 3])
    ∧ ((foundOccs c10Path c10Lines).map (fun p => p.property_name)
        = [str "Id", str "Id"])
    ∧ (foundOccs c10Path c10Lines).Nodup
    ∧ total_found [validate_file [] c10Path c10Lines] = 2
    ∧ total_invalid [validate_file [] c10Path c10Lines] = 2 := by
  set_option maxRecDepth 100000 in decide

end Vibeheim
